import Mathlib

/-!
Verification of the QR content classifier of the QRCodePay repository.

The classifier is `parseQRContent` in `src/utils/qrDataParser.ts`, an ordered
predicate chain over the raw scanned string.  A second, older variant of the
same function lives in `src/unnamed/part_001`.  Both are embedded below over
`List Char`-based string primitives that reproduce the JavaScript string
operations the source uses (`includes`, `startsWith`, `substring`, `split`,
`join`, `trim`, `Array.prototype.find`), restricted to the ASCII inputs the
repository deals in.
-/

/-- JavaScript-style split of a character list on a single separator
character.  Mirrors `String.prototype.split(sep)` for a one-character
separator: it always returns at least one (possibly empty) field. -/
def splitOnChar (c : Char) : List Char → List (List Char)
  | [] => [[]]
  | x :: xs =>
    if x = c then [] :: splitOnChar c xs
    else
      match splitOnChar c xs with
      | [] => [[x]]
      | h :: t => (x :: h) :: t

/-- Substring containment on character lists, mirroring
`String.prototype.includes`. -/
def listContains (pat : List Char) : List Char → Bool
  | [] => pat.isEmpty
  | x :: xs => pat.isPrefixOf (x :: xs) || listContains pat xs

/-- `String.prototype.includes(pat)` on Lean strings. -/
def jsIncludes (s pat : String) : Bool :=
  listContains pat.toList s.toList

/-- `String.prototype.startsWith(pre)` on Lean strings. -/
def jsStartsWith (s pre : String) : Bool :=
  pre.toList.isPrefixOf s.toList

/-- `String.prototype.substring(n)` on Lean strings (drop the first `n`
characters; the repository only ever drops ASCII literals). -/
def jsSubstring (s : String) (n : Nat) : String :=
  String.mk (s.toList.drop n)

/-- `String.prototype.split(c)` on Lean strings, single-character separator. -/
def jsSplit (c : Char) (s : String) : List String :=
  (splitOnChar c s.toList).map String.mk

/-- `Array.prototype.join(c)` on a list of strings, single-character
separator. -/
def jsJoin (c : Char) : List String → String
  | [] => ""
  | [x] => x
  | x :: y :: t => x ++ String.singleton c ++ jsJoin c (y :: t)

/-- The whitespace class of the JavaScript regex `\s` and of
`String.prototype.trim`, restricted to its ASCII members (the repository
never feeds the classifier non-ASCII whitespace). -/
def isJsSpace (c : Char) : Bool :=
  c == ' ' || c == '\t' || c == '\n' || c == '\r' || c == '\x0b' || c == '\x0c'

/-- `String.prototype.trim` on Lean strings (ASCII whitespace). -/
def jsTrim (s : String) : String :=
  String.mk (((s.toList.dropWhile isJsSpace).reverse.dropWhile isJsSpace).reverse)

/-- A character accepted by the body of the phone regex
`/^\+?[\d\s-]{10,}$/`: a digit, a `\s` whitespace character, or a hyphen. -/
def isPhoneChar (c : Char) : Bool :=
  c.isDigit || isJsSpace c || c == '-'

/-- The character list the `{10,}` part of the phone regex must match: the
whole input minus an optional leading `+`. -/
def phoneBody (s : String) : List Char :=
  match s.toList with
  | '+' :: rest => rest
  | l => l

/-- The tag union of `ParsedQRData.type` in `src/utils/qrDataParser.ts`:
`'text' | 'url' | 'email' | 'phone' | 'wifi' | 'contact' | 'apk' | 'service'
| 'product'`. -/
inductive QRType where
  | text
  | url
  | email
  | phone
  | wifi
  | contact
  | apk
  | service
  | product
deriving DecidableEq, Repr

/-- The optional `metadata` object of `ParsedQRData`; every field is
optional. -/
structure QRMetadata where
  fileName : Option String := none
  fileSize : Option String := none
  domain : Option String := none
  ssid : Option String := none
  password : Option String := none
  name : Option String := none
  email : Option String := none
  phone : Option String := none
  serviceType : Option String := none
  serialNumber : Option String := none
deriving DecidableEq, Repr

/-- The classifier's result record `ParsedQRData`. -/
structure ParsedQRData where
  type : QRType
  content : String
  metadata : Option QRMetadata := none
deriving DecidableEq, Repr

/-- The single error kind of the classifier: `new URL(data)` throwing on a
string that is not a parseable absolute URL. -/
inductive QRError where
  | malformedURL
deriving DecidableEq, Repr

/-- The hardcoded APK-hosting URL marker of `src/utils/qrDataParser.ts`. -/
def apkDriveLink : String :=
  "https://drive.google.com/file/d/1FO-TShzf2xBUs34e8Sdr5MVpgY2i3M4x/view?usp=drive_link"

/-- Modelled from the spec: `new URL(data).hostname` is a host-platform API,
not repository code.  Following the spec, which assumes "the content is a
syntactically valid absolute URL" and raises MalformedURL otherwise, it is
modelled for absolute `http`/`https` URLs: the authority is everything after
the scheme separator up to the first of `/`, `?`, `#`; userinfo up to the
last `@` and a `:`-separated port suffix are stripped; an empty host is a
parse failure (`none`). -/
def urlHostname (s : String) : Option String :=
  let rest :=
    if jsStartsWith s "http://" then some (jsSubstring s 7)
    else if jsStartsWith s "https://" then some (jsSubstring s 8)
    else none
  match rest with
  | none => none
  | some r =>
    let authority := r.toList.takeWhile fun c => !(c == '/' || c == '?' || c == '#')
    let hostPort := (splitOnChar '@' authority).getLastD []
    let host := hostPort.takeWhile fun c => !(c == ':')
    if host.isEmpty then none else some (String.mk host)

/-- First condition of the chain: `data.includes('.apk') ||
data.includes(<drive link>)`. -/
def apkPred (data : String) : Bool :=
  jsIncludes data ".apk" || jsIncludes data apkDriveLink

/-- Second condition: `data.startsWith('http://') ||
data.startsWith('https://')`. -/
def urlPred (data : String) : Bool :=
  jsStartsWith data "http://" || jsStartsWith data "https://"

/-- Third condition: `data.includes('@') && data.includes('.')`. -/
def emailPred (data : String) : Bool :=
  jsIncludes data "@" && jsIncludes data "."

/-- Fourth condition: the regex test `/^\+?[\d\s-]{10,}$/.test(data)`. -/
def phonePred (data : String) : Bool :=
  decide (10 ≤ (phoneBody data).length) && (phoneBody data).all isPhoneChar

/-- Fifth condition: `data.startsWith('WIFI:')`. -/
def wifiPred (data : String) : Bool :=
  jsStartsWith data "WIFI:"

/-- Sixth condition: `data.startsWith('BEGIN:VCARD')`. -/
def vcardPred (data : String) : Bool :=
  jsStartsWith data "BEGIN:VCARD"

/-- Seventh condition: `data.startsWith('service:')`. -/
def servicePred (data : String) : Bool :=
  jsStartsWith data "service:"

/-- The classifier `parseQRContent` of `src/utils/qrDataParser.ts`.  A branch
that calls `new URL(data).hostname` propagates a `malformedURL` error when
the URL model cannot parse the input; every other branch returns a result. -/
def parseQRContent (data : String) : Except QRError ParsedQRData :=
  if apkPred data then
    match urlHostname data with
    | some h => .ok { type := .apk, content := data, metadata := some { domain := some h } }
    | none => .error .malformedURL
  else if urlPred data then
    match urlHostname data with
    | some h => .ok { type := .url, content := data, metadata := some { domain := some h } }
    | none => .error .malformedURL
  else if emailPred data then
    .ok { type := .email, content := data, metadata := some { email := some data } }
  else if phonePred data then
    .ok { type := .phone, content := data, metadata := some { phone := some data } }
  else if wifiPred data then
    let wifiData := jsSplit ';' (jsSubstring data 5)
    let ssid := (wifiData.find? fun item => jsStartsWith item "S:").map fun f => jsSubstring f 2
    let password := (wifiData.find? fun item => jsStartsWith item "P:").map fun f => jsSubstring f 2
    .ok { type := .wifi, content := data, metadata := some { ssid := ssid, password := password } }
  else if vcardPred data then
    let lines := jsSplit '\n' data
    let name := (lines.find? fun line => jsStartsWith line "FN:").map fun f => jsSubstring f 3
    let email := (lines.find? fun line => jsStartsWith line "EMAIL:").map fun f => jsSubstring f 6
    let phone := (lines.find? fun line => jsStartsWith line "TEL:").map fun f => jsSubstring f 4
    .ok { type := .contact, content := data,
          metadata := some { name := name, email := email, phone := phone } }
  else if servicePred data then
    let serviceData := jsSplit ';' (jsSubstring data 8)
    let serviceType := serviceData.headD ""
    let serviceContent := jsJoin ';' (serviceData.drop 1)
    .ok { type := .text, content := serviceContent, metadata := some { fileName := some serviceType } }
  else
    .ok { type := .text, content := data }

namespace Variant

/-- The hardcoded APK marker of the `src/unnamed/part_001` variant. -/
def apkMarker : String := "google.drive.myappapk.debug"

/-- The `parseQRContent` variant of `src/unnamed/part_001`: same chain, but
its APK branch matches `google.drive.myappapk.debug` instead of the drive
link, and it has no `service:` branch at all. -/
def parseQRContent (data : String) : Except QRError ParsedQRData :=
  if jsIncludes data ".apk" || jsIncludes data apkMarker then
    match urlHostname data with
    | some h => .ok { type := .apk, content := data, metadata := some { domain := some h } }
    | none => .error .malformedURL
  else if urlPred data then
    match urlHostname data with
    | some h => .ok { type := .url, content := data, metadata := some { domain := some h } }
    | none => .error .malformedURL
  else if emailPred data then
    .ok { type := .email, content := data, metadata := some { email := some data } }
  else if phonePred data then
    .ok { type := .phone, content := data, metadata := some { phone := some data } }
  else if wifiPred data then
    let wifiData := jsSplit ';' (jsSubstring data 5)
    let ssid := (wifiData.find? fun item => jsStartsWith item "S:").map fun f => jsSubstring f 2
    let password := (wifiData.find? fun item => jsStartsWith item "P:").map fun f => jsSubstring f 2
    .ok { type := .wifi, content := data, metadata := some { ssid := ssid, password := password } }
  else if vcardPred data then
    let lines := jsSplit '\n' data
    let name := (lines.find? fun line => jsStartsWith line "FN:").map fun f => jsSubstring f 3
    let email := (lines.find? fun line => jsStartsWith line "EMAIL:").map fun f => jsSubstring f 6
    let phone := (lines.find? fun line => jsStartsWith line "TEL:").map fun f => jsSubstring f 4
    .ok { type := .contact, content := data,
          metadata := some { name := name, email := email, phone := phone } }
  else
    .ok { type := .text, content := data }

end Variant

/-- The guard of `handleBarCodeScanned` in `src/components/QRScanner.tsx`:
a scan is handed to the classifier only when the decoded string is truthy
(non-empty) and not whitespace-only. -/
def scannerAccepts (data : String) : Bool :=
  !data.toList.isEmpty && !(jsTrim data).toList.isEmpty

/-- The tag of a classification outcome, `none` on the error outcome. -/
def resultTag : Except QRError ParsedQRData → Option QRType
  | .ok r => some r.type
  | .error _ => none

/-- The number of the seven discriminating conditions an input satisfies. -/
def matchCount (s : String) : Nat :=
  (apkPred s).toNat + (urlPred s).toNat + (emailPred s).toNat + (phonePred s).toNat +
    (wifiPred s).toNat + (vcardPred s).toNat + (servicePred s).toNat

/-- The tag belonging to the earliest satisfied condition in the fixed check
order of the spec (APK, URL, email, phone, WiFi, vCard, service, plain
text). -/
def earliestTag (s : String) : QRType :=
  if apkPred s then .apk
  else if urlPred s then .url
  else if emailPred s then .email
  else if phonePred s then .phone
  else if wifiPred s then .wifi
  else if vcardPred s then .contact
  else if servicePred s then .service
  else .text

/-- C1: for every non-empty string `s`, `classify(s)` returns a result whose
tag is exactly one element of the closed set {apk, url, email, phone, wifi,
contact, service, text}, or raises the MalformedURL error; no other outcome
is possible. -/
theorem classify_closed_tag_set (s : String) (_hne : s ≠ "") :
    (∃ r, parseQRContent s = Except.ok r ∧
      (r.type = QRType.apk ∨ r.type = QRType.url ∨ r.type = QRType.email ∨
       r.type = QRType.phone ∨ r.type = QRType.wifi ∨ r.type = QRType.contact ∨
       r.type = QRType.service ∨ r.type = QRType.text)) ∨
    parseQRContent s = Except.error QRError.malformedURL := by
  unfold parseQRContent
  repeat' split
  all_goals first
    | exact Or.inr rfl
    | exact Or.inl ⟨_, rfl, by simp⟩

theorem classify_closed_tag_set_witness :
    ("hello" : String) ≠ "" ∧
    ((∃ r, parseQRContent "hello" = Except.ok r ∧
      (r.type = QRType.apk ∨ r.type = QRType.url ∨ r.type = QRType.email ∨
       r.type = QRType.phone ∨ r.type = QRType.wifi ∨ r.type = QRType.contact ∨
       r.type = QRType.service ∨ r.type = QRType.text)) ∨
    parseQRContent "hello" = Except.error QRError.malformedURL) :=
  ⟨by decide, classify_closed_tag_set "hello" (by decide)⟩

/-- C2: `classify(s)` raises an error if and only if `s` satisfies the APK
predicate or, failing that, the URL predicate, and `s` cannot be parsed as
an absolute URL for hostname extraction; every other input returns a
result. -/
theorem classify_error_iff (s : String) :
    parseQRContent s = Except.error QRError.malformedURL ↔
      ((apkPred s = true ∨ urlPred s = true) ∧ urlHostname s = none) := by
  unfold parseQRContent
  repeat' split
  all_goals simp_all

/-- C9: the tag of a successful classification is never `service` and never
`product`, even though both constructors appear in the declared `QRType`
union: the `service:` branch returns tag `text`, and no branch returns
`product`, so the presentation layer's service and product rendering
branches are unreachable from classifier output. -/
theorem classify_no_service_no_product (s : String) (r : ParsedQRData)
    (h : parseQRContent s = Except.ok r) :
    r.type ≠ QRType.service ∧ r.type ≠ QRType.product := by
  unfold parseQRContent at h
  repeat' split at h
  all_goals first
    | exact Except.noConfusion h
    | (injection h with h; subst h; exact ⟨by simp, by simp⟩)

theorem classify_no_service_no_product_witness :
    ({ type := QRType.text, content := "hello" } : ParsedQRData).type ≠ QRType.service ∧
    ({ type := QRType.text, content := "hello" } : ParsedQRData).type ≠ QRType.product :=
  classify_no_service_no_product "hello" _ rfl

/-- C3: the classifier evaluates its conditions in the fixed order APK, URL,
email, phone, WiFi, vCard, service, plain-text fallback, and returns on the
first match: whenever an input satisfies the discriminating condition of
more than one category, the resulting tag is that of the earliest matching
condition of this order. -/
theorem classify_first_match (s : String) (r : ParsedQRData)
    (hok : parseQRContent s = Except.ok r) (hmulti : 2 ≤ matchCount s) :
    r.type = earliestTag s := by
  unfold parseQRContent at hok
  repeat' split at hok
  all_goals first
    | exact Except.noConfusion hok
    | (injection hok with hok; subst hok;
       simp_all [earliestTag, matchCount, Bool.toNat])

theorem classify_first_match_witness :
    2 ≤ matchCount "WIFI:S:a@b.c;;" ∧
    ({ type := QRType.email, content := "WIFI:S:a@b.c;;",
       metadata := some { email := some "WIFI:S:a@b.c;;" } } : ParsedQRData).type =
      earliestTag "WIFI:S:a@b.c;;" :=
  ⟨by decide, classify_first_match "WIFI:S:a@b.c;;" _ rfl (by decide)⟩

/-- The vCard scenario input of the spec, with real newline characters. -/
def vcardInput : String := "BEGIN:VCARD\nFN:Jane Doe\nEMAIL:jane@x.com\nTEL:555000"

/-- A vCard input that does not trip the earlier email heuristic (it
contains no `@`/`.` pair). -/
def vcardNoEmailInput : String := "BEGIN:VCARD\nFN:Jane Doe\nTEL:555000"

/-- C4 counterexample: on the spec's vCard scenario input the email
heuristic (checked before the vCard branch) matches, because the input
contains both `@` and `.`; the classifier therefore tags it `email`, not
`contact`. -/
theorem classify_vcard_scenario_cex :
    resultTag (parseQRContent vcardInput) = some QRType.email ∧
    resultTag (parseQRContent vcardInput) ≠ some QRType.contact :=
  ⟨rfl, by decide⟩

/-- C4 amended: the spec's vCard scenario input is tagged `email` (with the
whole input as the email field) because the email heuristic shadows the
vCard branch; a vCard without both `@` and `.` — here one with only `FN:`
and `TEL:` lines — is tagged `contact` with name `Jane Doe`, phone
`555000`, and no email field. -/
theorem classify_vcard_scenario_amended :
    parseQRContent vcardInput =
      Except.ok { type := QRType.email, content := vcardInput,
                  metadata := some { email := some vcardInput } } ∧
    parseQRContent vcardNoEmailInput =
      Except.ok { type := QRType.contact, content := vcardNoEmailInput,
                  metadata := some { name := some "Jane Doe", phone := some "555000" } } :=
  ⟨rfl, rfl⟩

/-- C5 counterexample: a `service:` input that matches no earlier condition
is tagged `text`, not `service`; the first semicolon-delimited token lands
in the `fileName` field and the rest becomes the content. -/
theorem classify_service_tag_cex :
    resultTag (parseQRContent "service:print;hello;world") ≠ some QRType.service ∧
    parseQRContent "service:print;hello;world" =
      Except.ok { type := QRType.text, content := "hello;world",
                  metadata := some { fileName := some "print" } } :=
  ⟨by decide, rfl⟩

/-- C5 amended: for every input with literal prefix `service:` that matches
no earlier condition, the classifier returns a result with tag `text` (not
`service`), whose content is everything after the first semicolon-delimited
token of the remainder, and whose `fileName` metadata field is that first
token; the `serviceType` field is never set. -/
theorem classify_service_branch (s : String)
    (hservice : servicePred s = true)
    (hapk : apkPred s = false) (hurl : urlPred s = false) (hemail : emailPred s = false)
    (hphone : phonePred s = false) (hwifi : wifiPred s = false) (hvcard : vcardPred s = false) :
    parseQRContent s = Except.ok
      { type := QRType.text,
        content := jsJoin ';' ((jsSplit ';' (jsSubstring s 8)).drop 1),
        metadata := some { fileName := some ((jsSplit ';' (jsSubstring s 8)).headD ""),
                           serviceType := none } } := by
  simp [parseQRContent, hservice, hapk, hurl, hemail, hphone, hwifi, hvcard]

theorem classify_service_branch_witness :
    parseQRContent "service:scan;payload" = Except.ok
      { type := QRType.text,
        content := jsJoin ';' ((jsSplit ';' (jsSubstring "service:scan;payload" 8)).drop 1),
        metadata := some
          { fileName := some ((jsSplit ';' (jsSubstring "service:scan;payload" 8)).headD ""),
            serviceType := none } } :=
  classify_service_branch "service:scan;payload" (by decide) (by decide) (by decide)
    (by decide) (by decide) (by decide) (by decide)

/-- C6 counterexample: the APK check uses substring containment, not
equality, against the hardcoded APK-hosting URL: an input that strictly
contains the marker (here with an extra trailing character) is still tagged
`apk`, although it neither contains `.apk` nor equals the marker. -/
theorem classify_apk_contains_cex :
    parseQRContent (apkDriveLink ++ "X") =
      Except.ok { type := QRType.apk, content := apkDriveLink ++ "X",
                  metadata := some { domain := some "drive.google.com" } } ∧
    jsIncludes (apkDriveLink ++ "X") ".apk" = false ∧
    (apkDriveLink ++ "X") ≠ apkDriveLink :=
  ⟨rfl, by decide, by decide⟩

/-- C6 amended: a successful classification is tagged `apk` exactly when the
input contains the literal substring `.apk` or contains (not necessarily
equals) the hardcoded APK-hosting URL; on a match the `domain` metadata is
the hostname parsed from the input as a URL.  In particular
`classify("https://example.com/app.apk")` is tagged `apk` with domain
`example.com`. -/
theorem classify_apk_characterization :
    (∀ s r, parseQRContent s = Except.ok r →
      ((r.type = QRType.apk ↔ (jsIncludes s ".apk" = true ∨ jsIncludes s apkDriveLink = true)) ∧
       (r.type = QRType.apk → r.metadata = some { domain := urlHostname s }))) ∧
    parseQRContent "https://example.com/app.apk" =
      Except.ok { type := QRType.apk, content := "https://example.com/app.apk",
                  metadata := some { domain := some "example.com" } } := by
  constructor
  · intro s r h
    unfold parseQRContent at h
    repeat' split at h
    all_goals first
      | exact Except.noConfusion h
      | (injection h with h; subst h; simp_all [apkPred])
  · rfl

theorem classify_apk_characterization_witness :
    ({ type := QRType.apk, content := "https://example.com/app.apk",
       metadata := some { domain := some "example.com" } } : ParsedQRData).type = QRType.apk ↔
      (jsIncludes "https://example.com/app.apk" ".apk" = true ∨
       jsIncludes "https://example.com/app.apk" apkDriveLink = true) :=
  (classify_apk_characterization.1 "https://example.com/app.apk" _
    classify_apk_characterization.2).1

/-- C7: for every input with literal prefix `WIFI:` that matches no earlier
condition, the remainder is split on `;`; the ssid is the first field with
prefix `S:` (prefix dropped) and the password the first field with prefix
`P:`, each metadata attribute staying absent when no such field exists.  In
particular the spec's WiFi scenario yields ssid `MyNetwork` and password
`secret123`, and a field list with no `S:`/`P:` field yields neither. -/
theorem classify_wifi_branch :
    (∀ s, wifiPred s = true → apkPred s = false → urlPred s = false →
      emailPred s = false → phonePred s = false →
      parseQRContent s = Except.ok
        { type := QRType.wifi, content := s,
          metadata := some
            { ssid := ((jsSplit ';' (jsSubstring s 5)).find? fun item =>
                jsStartsWith item "S:").map fun f => jsSubstring f 2,
              password := ((jsSplit ';' (jsSubstring s 5)).find? fun item =>
                jsStartsWith item "P:").map fun f => jsSubstring f 2 } }) ∧
    parseQRContent "WIFI:S:MyNetwork;T:WPA;P:secret123;;" =
      Except.ok { type := QRType.wifi, content := "WIFI:S:MyNetwork;T:WPA;P:secret123;;",
                  metadata := some { ssid := some "MyNetwork", password := some "secret123" } } ∧
    parseQRContent "WIFI:T:WPA;;" =
      Except.ok { type := QRType.wifi, content := "WIFI:T:WPA;;",
                  metadata := some { ssid := none, password := none } } := by
  refine ⟨?_, rfl, rfl⟩
  intro s hwifi hapk hurl hemail hphone
  simp [parseQRContent, hwifi, hapk, hurl, hemail, hphone]

theorem classify_wifi_branch_witness :
    parseQRContent "WIFI:S:abc;;" = Except.ok
      { type := QRType.wifi, content := "WIFI:S:abc;;",
        metadata := some
          { ssid := ((jsSplit ';' (jsSubstring "WIFI:S:abc;;" 5)).find? fun item =>
              jsStartsWith item "S:").map fun f => jsSubstring f 2,
            password := ((jsSplit ';' (jsSubstring "WIFI:S:abc;;" 5)).find? fun item =>
              jsStartsWith item "P:").map fun f => jsSubstring f 2 } } :=
  classify_wifi_branch.1 "WIFI:S:abc;;" (by decide) (by decide) (by decide)
    (by decide) (by decide)

/-- C8 counterexample: classification is not a total function on strings:
the input `.apk` matches the APK condition but is not a parseable absolute
URL, so the classifier raises MalformedURL instead of producing a result. -/
theorem classify_total_cex :
    parseQRContent ".apk" = Except.error QRError.malformedURL :=
  rfl

/-- C8 amended: classification returns a result for every string except
those on which the APK or URL condition matches and hostname extraction
fails (where it raises MalformedURL); the empty string falls through every
condition to the plain-text fallback; empty and whitespace-only inputs are
filtered upstream by the scanning caller, not by the classifier itself. -/
theorem classify_partiality_amended :
    (∀ s, ¬((apkPred s = true ∨ urlPred s = true) ∧ urlHostname s = none) →
      ∃ r, parseQRContent s = Except.ok r) ∧
    parseQRContent "" = Except.ok { type := QRType.text, content := "" } ∧
    scannerAccepts "" = false ∧ scannerAccepts " \t " = false ∧ scannerAccepts "qr" = true := by
  refine ⟨?_, rfl, rfl, rfl, rfl⟩
  intro s hnot
  unfold parseQRContent
  repeat' split
  all_goals first
    | exact ⟨_, rfl⟩
    | exact absurd ⟨Or.inl ‹apkPred s = true›, ‹urlHostname s = none›⟩ hnot
    | exact absurd ⟨Or.inr ‹urlPred s = true›, ‹urlHostname s = none›⟩ hnot

theorem classify_partiality_amended_witness :
    ∃ r, parseQRContent "plain text with no markers" = Except.ok r :=
  classify_partiality_amended.1 "plain text with no markers" (by decide)

/-- C10: the two parser variants (`src/utils/qrDataParser.ts` and
`src/unnamed/part_001`) return identical results on every input that does
not begin with `service:` and contains neither variant's hardcoded APK
marker as a substring. -/
theorem classify_variants_agree (s : String)
    (hservice : servicePred s = false)
    (hdrive : jsIncludes s apkDriveLink = false)
    (hmarker : jsIncludes s Variant.apkMarker = false) :
    parseQRContent s = Variant.parseQRContent s := by
  unfold parseQRContent Variant.parseQRContent
  simp only [apkPred, hservice, hdrive, hmarker, Bool.or_false]
  rfl

theorem classify_variants_agree_witness :
    servicePred "person@example.com" = false ∧
    parseQRContent "person@example.com" = Variant.parseQRContent "person@example.com" :=
  ⟨by decide, classify_variants_agree "person@example.com" (by decide) (by decide) (by decide)⟩
